import Mathlib

/-!
# Verification of the production event bus

Shallow embedding of the event-bus core of this repository
(src/app/core/event_bus.py, src/app/models/events.py, src/app/core/config.py)
and proofs about its dispatch, retry, timeout, dead-letter and shutdown
behaviour.

Modelling conventions:
* Python objects that are shared by reference (events held simultaneously by a
  priority queue, the pending-events dict and the dead-letter deque) live in a
  heap `events : Nat -> Event` indexed by event id; all containers hold ids.
* `asyncio.Future` is modelled by `FutureState` (unresolved / value / error /
  cancelled); `Future.cancel()` on an unresolved future makes it `cancelled`.
* Wall-clock durations and timeouts (Python floats) are modelled as rationals;
  an `asyncio.wait_for(coro, timeout=t)` call times out exactly when the
  awaited computation needs strictly more than `t` seconds.
* `asyncio.sleep` inside the retry path has no state effect; the slept
  duration is returned as data (the `Option Rat` component) so that the
  backoff amount can be reasoned about.
* Listener handlers are opaque: a handler is a function from the event to a
  wall-clock duration plus an outcome (a returned value or a raised message).
  Returned values are modelled by an opaque type of naturals.
* datetime bookkeeping fields (created_at, processing_start_time,
  processing_end_time), metrics counters, logging and the best-effort
  persistence writer are not modelled: no claim below depends on them.
-/

namespace EventBus

/-- EventType from src/app/models/events.py (closed enumeration). -/
inductive EventType where
  | FILE_UPLOAD_RECORD
  | SEND_ADVISOR_STATS_WECHAT_REPORT_TASK
  deriving DecidableEq, Repr

/-- EventPriority from src/app/models/events.py. -/
inductive EventPriority where
  | LOW
  | NORMAL
  | HIGH
  | CRITICAL
  deriving DecidableEq, Repr

/-- The numeric value of each priority (LOW = 0, NORMAL = 1, HIGH = 2,
CRITICAL = 3), i.e. the `.value` of the Python enum. -/
def EventPriority.value : EventPriority → Nat
  | .LOW => 0
  | .NORMAL => 1
  | .HIGH => 2
  | .CRITICAL => 3

/-- EventStatus from src/app/models/events.py. -/
inductive EventStatus where
  | PENDING
  | PROCESSING
  | COMPLETED
  | FAILED
  | TIMEOUT
  | CANCELLED
  deriving DecidableEq, Repr

/-- Opaque listener return value (Python handlers may return anything). -/
abbrev Value := Nat

/-- The value handed to a result future by _complete_event:
`results[0] if len(results) == 1 else results`. -/
inductive ResultVal where
  | one (v : Value)
  | many (vs : List Value)
  deriving DecidableEq, Repr

/-- The exceptions raised and propagated inside the bus. -/
inductive BusError where
  /-- RuntimeError("EventBus is not running") raised by emit. -/
  | notRunning
  /-- ValueError("No listeners for event type: ...") raised by _process_event. -/
  | noListeners (t : EventType)
  /-- TimeoutError("Listener ... timeout after ...") raised by _call_listener. -/
  | listenerTimeout (name : String)
  /-- Any exception raised by a handler itself. -/
  | handlerFailure (name msg : String)
  deriving DecidableEq, Repr

/-- State of an asyncio.Future result slot. -/
inductive FutureState where
  | unresolved
  | result (r : ResultVal)
  | excp (e : BusError)
  | cancelled
  deriving DecidableEq, Repr

/-- Future.done(): true once resolved with a value, an exception, or
cancelled. -/
def FutureState.done : FutureState → Bool
  | .unresolved => false
  | _ => true

/-- Event from src/app/models/events.py, restricted to the fields the bus
logic reads or writes (payload, timestamps and tracing metadata omitted). -/
structure Event where
  event_id : Nat
  type : EventType
  priority : EventPriority
  wait_for_result : Bool
  timeout : ℚ
  retry_count : Nat
  max_retries : Nat
  status : EventStatus
  error_message : Option BusError
  result_future : Option FutureState
  deriving DecidableEq, Repr

/-- Observable behaviour of one handler call on one event: how long the call
takes and whether it returns a value or raises. -/
structure HandlerResult where
  duration : ℚ
  outcome : Except String Value

/-- A handler callable: async (coroutine function) or plain sync, plus its
behaviour on each event. -/
structure Handler where
  isCoroutine : Bool
  behavior : Event → HandlerResult

/-- EventListener from src/app/models/events.py. The asyncio.Semaphore field
is represented by its initial number of permits. -/
structure EventListener where
  event_type : EventType
  handler : Handler
  priority : EventPriority
  max_concurrent : Nat
  timeout : ℚ
  name : String
  active_count : Nat
  total_processed : Nat
  total_failed : Nat
  semaphoreInitPermits : Nat

/-- Constructing an EventListener the way every registration site does
(event_type, handler, priority, max_concurrent, timeout, name): the remaining
pydantic fields take their declared defaults, in particular the semaphore
field's default_factory builds asyncio.Semaphore(1) no matter what
max_concurrent is. -/
def mkEventListener (ty : EventType) (h : Handler) (p : EventPriority)
    (mc : Nat) (tmo : ℚ) (name : String) : EventListener :=
  { event_type := ty
    handler := h
    priority := p
    max_concurrent := mc
    timeout := tmo
    name := name
    active_count := 0
    total_processed := 0
    total_failed := 0
    semaphoreInitPermits := 1 }

/-- The EventBus slice of Settings (src/app/core/config.py). -/
structure Config where
  worker_count : Nat
  max_queue_size : Nat
  dead_letter_queue_size : Nat
  default_wait_for_result : Bool
  default_timeout : ℚ
  max_retry_count : Nat
  retry_delay : ℚ
  health_check_interval : Nat

/-- The defaults declared in src/app/core/config.py. -/
def defaultConfig : Config :=
  { worker_count := 4
    max_queue_size := 1000
    dead_letter_queue_size := 100
    default_wait_for_result := true
    default_timeout := 30
    max_retry_count := 3
    retry_delay := 1
    health_check_interval := 30 }

/-- An Event built with the pydantic defaults of src/app/models/events.py
(wait_for_result, timeout and max_retries come from settings). -/
def mkEvent (ty : EventType) (id : Nat) : Event :=
  { event_id := id
    type := ty
    priority := .NORMAL
    wait_for_result := defaultConfig.default_wait_for_result
    timeout := defaultConfig.default_timeout
    retry_count := 0
    max_retries := defaultConfig.max_retry_count
    status := .PENDING
    error_message := none
    result_future := none }

/-- The effective per-call deadline of _call_listener:
`timeout = listener.timeout or event.timeout` (Python float truthiness:
0.0 falls back to the event timeout). -/
def effectiveTimeout (l : EventListener) (e : Event) : ℚ :=
  if l.timeout = 0 then e.timeout else l.timeout

/-- _call_listener: a coroutine handler is run under
asyncio.wait_for(handler(event), timeout) and a TimeoutError("Listener ...")
is raised when it overruns; a sync handler is run in the default executor
with no deadline at all. A handler exception is re-raised unchanged. -/
def callListener (l : EventListener) (e : Event) : Except BusError Value :=
  let res := l.handler.behavior e
  if l.handler.isCoroutine then
    if effectiveTimeout l e < res.duration then
      .error (.listenerTimeout l.name)
    else
      match res.outcome with
      | .ok v => .ok v
      | .error m => .error (.handlerFailure l.name m)
  else
    match res.outcome with
    | .ok v => .ok v
    | .error m => .error (.handlerFailure l.name m)

/-- The listener loop of _process_event: invoke listeners in list order; on
success append the result and bump total_processed; on failure bump
total_failed and re-raise iff listener.priority.value >= 2 (HIGH/CRITICAL),
otherwise swallow and continue.  Returns the updated listener records and
either the collected results or the escalated error.  (The per-listener
semaphore of _execute_listener is acquired and released around each call and
has no net effect on this sequential dispatch.) -/
def runListeners : List EventListener → Event →
    List EventListener × Except BusError (List Value)
  | [], _ => ([], .ok [])
  | l :: rest, e =>
    match callListener l e with
    | .ok v =>
      let out := runListeners rest e
      ({ l with total_processed := l.total_processed + 1 } :: out.1,
       match out.2 with
       | .ok vs => .ok (v :: vs)
       | .error err => .error err)
    | .error err =>
      if l.priority.value ≥ 2 then
        ({ l with total_failed := l.total_failed + 1 } :: rest, .error err)
      else
        let out := runListeners rest e
        ({ l with total_failed := l.total_failed + 1 } :: out.1, out.2)

/-- `final_result = results[0] if len(results) == 1 else results`. -/
def finalResult (results : List Value) : ResultVal :=
  if results.length = 1 then .one results.headI else .many results

/-- `event.wait_for_result and event.result_future and not
event.result_future.done()` — the guard used before setting a result or an
exception on the future. -/
def futureReadyToSet (e : Event) : Bool :=
  e.wait_for_result &&
    (match e.result_future with
     | some f => !f.done
     | none => false)

/-- append to a collections.deque with maxlen = cap: push on the right and
drop from the left while over capacity. -/
def dequeAppend (cap : Nat) (buf : List Nat) (x : Nat) : List Nat :=
  let b := buf ++ [x]
  if cap < b.length then b.drop (b.length - cap) else b

/-- `self.event_queues[idx].put(event)` on a list of FIFO queues
(front of the list = front of the queue). -/
def enqueueAt (qs : List (List Nat)) (idx : Nat) (id : Nat) : List (List Nat) :=
  qs.set idx (qs.getD idx [] ++ [id])

/-- The complete mutable state of one ProductionEventBus (metrics, history
and persistence omitted).  Queue index = EventPriority.value, exactly as the
queues are created by the `for _ in EventPriority` loop of __init__ and
selected by `event.priority.value` in emit. -/
structure BusState where
  running : Bool
  events : Nat → Event
  queues : List (List Nat)
  pending : List Nat
  deadLetter : List Nat
  listeners : EventType → List EventListener

/-- A bus as built by __init__: not yet running, four empty priority queues,
no pending events, empty dead-letter deque, no listeners.  Ids not yet
allocated by an emit map to a placeholder event. -/
def initBusState : BusState :=
  { running := false
    events := fun _ => mkEvent .FILE_UPLOAD_RECORD 0
    queues := [[], [], [], []]
    pending := []
    deadLetter := []
    listeners := fun _ => [] }

/-- start(): sets self.running = True (worker/health/metrics task spawning
has no further state of its own in this model). -/
def startBus (s : BusState) : BusState :=
  { s with running := true }

/-- Stable insertion of a listener into a descending-priority list: walk past
strictly higher priorities, settle before the first equal-or-lower one. -/
def insertDesc (l : EventListener) : List EventListener → List EventListener
  | [] => [l]
  | x :: xs =>
    if l.priority.value < x.priority.value then x :: insertDesc l xs
    else l :: x :: xs

/-- `list.sort(key=lambda x: x.priority.value, reverse=True)` — a stable sort
into descending priority order. -/
def sortByPriorityDesc : List EventListener → List EventListener
  | [] => []
  | x :: xs => insertDesc x (sortByPriorityDesc xs)

/-- register_listener: append to the per-type list, then re-sort that list by
descending priority. -/
def registerListener (s : BusState) (l : EventListener) : BusState :=
  { s with
    listeners := fun t =>
      if t = l.event_type then sortByPriorityDesc (s.listeners l.event_type ++ [l])
      else s.listeners t }

/-- The enqueue phase of emit (lines 182-220): refuse when not running;
when wait_for_result create the (unresolved) result future and record the
event in pending_events; put the event on the queue indexed by
priority.value; then the finally block pops the event id from pending_events
again.  (The queue is assumed non-full: a full queue only suspends the
caller.) -/
def emitPhase1 (s : BusState) (e : Event) : Except BusError BusState :=
  if !s.running then .error .notRunning
  else
    let e1 := if e.wait_for_result then { e with result_future := some .unresolved } else e
    let s1 := { s with
      events := Function.update s.events e1.event_id e1
      pending := if e1.wait_for_result then s.pending ++ [e1.event_id] else s.pending }
    let s2 := { s1 with queues := enqueueAt s1.queues e1.priority.value e1.event_id }
    .ok { s2 with pending := s2.pending.erase e1.event_id }

/-- _complete_event: status COMPLETED; set the future's result when
wait_for_result holds and the future exists and is not done. -/
def completeEvent (s : BusState) (id : Nat) (r : ResultVal) : BusState :=
  let e := s.events id
  let e1 := { e with status := EventStatus.COMPLETED }
  let e2 :=
    if futureReadyToSet e1 then { e1 with result_future := some (.result r) } else e1
  { s with events := Function.update s.events id e2 }

/-- _handle_event_error: store the error message; while retry_count <
max_retries increment retry_count, set status PENDING, sleep
retry_delay * 2 ^ (retry_count - 1) (returned as data) and re-enqueue on the
queue of the event's priority; otherwise status FAILED, append to the
dead-letter deque and set the exception on a present, unresolved future. -/
def handleEventError (cfg : Config) (s : BusState) (id : Nat) (err : BusError) :
    BusState × Option ℚ :=
  let e := s.events id
  let e1 := { e with error_message := some err }
  if e1.retry_count < e1.max_retries then
    let e2 := { e1 with retry_count := e1.retry_count + 1, status := EventStatus.PENDING }
    let delay := cfg.retry_delay * 2 ^ (e2.retry_count - 1)
    ({ s with
        events := Function.update s.events id e2
        queues := enqueueAt s.queues e2.priority.value id },
     some delay)
  else
    let e2 := { e1 with status := EventStatus.FAILED }
    let e3 :=
      if futureReadyToSet e2 then { e2 with result_future := some (.excp err) } else e2
    ({ s with
        events := Function.update s.events id e3
        deadLetter := dequeAppend cfg.dead_letter_queue_size s.deadLetter id },
     none)

/-- _handle_timeout (reached from emit when the overall wait exceeds
event.timeout): status TIMEOUT, append to the dead-letter deque; no retry, no
re-enqueue, the future is left untouched. -/
def handleTimeout (cfg : Config) (s : BusState) (id : Nat) : BusState :=
  let e := s.events id
  { s with
    events := Function.update s.events id { e with status := EventStatus.TIMEOUT }
    deadLetter := dequeAppend cfg.dead_letter_queue_size s.deadLetter id }

/-- _process_event: status PROCESSING; with no registered listeners raise the
no-listeners ValueError into _handle_event_error; otherwise run the listener
loop, completing the event on success and passing an escalated error to
_handle_event_error.  The second component is the retry backoff slept, if
any. -/
def processEvent (cfg : Config) (s : BusState) (id : Nat) : BusState × Option ℚ :=
  let e1 := { s.events id with status := EventStatus.PROCESSING }
  let s1 := { s with events := Function.update s.events id e1 }
  let ls := s1.listeners e1.type
  if ls.isEmpty then
    handleEventError cfg s1 id (.noListeners e1.type)
  else
    let out := runListeners ls e1
    let s2 := { s1 with
      listeners := fun t => if t = e1.type then out.1 else s1.listeners t }
    match out.2 with
    | .ok results => (completeEvent s2 id (finalResult results), none)
    | .error err => handleEventError cfg s2 id err

/-- _get_next_event: poll the queues in reversed list order (index 3 =
CRITICAL first, then HIGH, NORMAL, LOW) and take the front of the first
non-empty one. -/
def pollQueues : List (List Nat) → Option (Nat × List (List Nat))
  | [] => none
  | q :: rest =>
    match pollQueues rest with
    | some (id, rest1) => some (id, q :: rest1)
    | none =>
      match q with
      | [] => none
      | x :: xs => some (x, xs :: rest)

/-- The cancellation loop of stop() applied to one pending id: a present,
not-done future is cancelled and the event is marked CANCELLED; otherwise the
event is left alone. -/
def cancelPendingEvent (events : Nat → Event) (id : Nat) : Nat → Event :=
  let e := events id
  match e.result_future with
  | some f =>
    if !f.done then
      Function.update events id
        { e with result_future := some .cancelled, status := EventStatus.CANCELLED }
    else events
  | none => events

/-- stop(): no-op when not running; otherwise set running = False, cancel the
future of every event recorded in pending_events whose future is not yet
done, and clear pending_events.  (Worker joining only awaits tasks and has no
state of its own here.) -/
def stopBus (s : BusState) : BusState :=
  if !s.running then s
  else
    { s with
      running := false
      events := s.pending.foldl cancelPendingEvent s.events
      pending := [] }

/-- clear_dead_letter_queue. -/
def clearDeadLetterQueue (s : BusState) : BusState :=
  { s with deadLetter := [] }

/-- One observable state transition of the bus: any of the public or worker
operations fires. -/
inductive BusStep (cfg : Config) : BusState → BusState → Prop
  | start (s : BusState) : BusStep cfg s (startBus s)
  | emit (s s' : BusState) (e : Event) (h : emitPhase1 s e = .ok s') : BusStep cfg s s'
  | process (s : BusState) (id : Nat) : BusStep cfg s (processEvent cfg s id).1
  | timeout (s : BusState) (id : Nat) : BusStep cfg s (handleTimeout cfg s id)
  | register (s : BusState) (l : EventListener) : BusStep cfg s (registerListener s l)
  | stop (s : BusState) : BusStep cfg s (stopBus s)
  | clearDL (s : BusState) : BusStep cfg s (clearDeadLetterQueue s)

/-- A state of the bus reachable from construction. -/
def Reachable (cfg : Config) (s : BusState) : Prop :=
  Relation.ReflTransGen (BusStep cfg) initBusState s

/-- State of one listener's asyncio.Semaphore: available permits plus the
number of invocations currently holding it. -/
structure SemState where
  permits : Nat
  active : Nat
  deriving DecidableEq, Repr

/-- Semaphore transitions performed by _execute_listener: an acquire needs a
free permit; a release returns one. -/
inductive SemStep : SemState → SemState → Prop
  | acquire (s : SemState) (h : 0 < s.permits) :
      SemStep s { permits := s.permits - 1, active := s.active + 1 }
  | release (s : SemState) (h : 0 < s.active) :
      SemStep s { permits := s.permits + 1, active := s.active - 1 }

/-! ## Concrete scenario states used by counterexamples and witnesses -/

/-- A freshly started bus with no listeners. -/
def startedBus : BusState := startBus initBusState

/-- A default event of the first event type, id 0 (wait_for_result defaults
to true). -/
def sampleEvent : Event := mkEvent .FILE_UPLOAD_RECORD 0

/-- An async handler that needs 10 seconds and then would return 0. -/
def slowAsyncHandler : Handler :=
  { isCoroutine := true, behavior := fun _ => { duration := 10, outcome := .ok 0 } }

/-- A CRITICAL-priority listener over the slow async handler with a
1-second listener timeout. -/
def slowCriticalListener : EventListener :=
  mkEventListener .FILE_UPLOAD_RECORD slowAsyncHandler .CRITICAL 1 1 "c3"

/-- A started bus with only the slow critical listener registered. -/
def slowCriticalBus : BusState := registerListener startedBus slowCriticalListener

/-! ## Auxiliary lemmas -/

theorem semStep_sum {s t : SemState} (hst : SemStep s t)
    (h : s.active + s.permits = 1) : t.active + t.permits = 1 := by
  cases hst with
  | acquire h0 => simp only; omega
  | release h0 => simp only; omega

theorem semReachable_sum {s : SemState}
    (h : Relation.ReflTransGen SemStep { permits := 1, active := 0 } s) :
    s.active + s.permits = 1 := by
  induction h with
  | refl => rfl
  | tail hst step ih => exact semStep_sum step ih

theorem handleEventError_retry (cfg : Config) (s : BusState) (id : Nat)
    (err : BusError)
    (h : (s.events id).retry_count < (s.events id).max_retries) :
    handleEventError cfg s id err =
      ({ s with
          events := Function.update s.events id
            { s.events id with
                error_message := some err
                retry_count := (s.events id).retry_count + 1
                status := EventStatus.PENDING }
          queues := enqueueAt s.queues (s.events id).priority.value id },
       some (cfg.retry_delay * 2 ^ (s.events id).retry_count)) := by
  simp only [handleEventError]
  rw [if_pos h]
  rfl

theorem handleEventError_exhausted (cfg : Config) (s : BusState) (id : Nat)
    (err : BusError)
    (h : (s.events id).max_retries ≤ (s.events id).retry_count) :
    handleEventError cfg s id err =
      ({ s with
          events := Function.update s.events id
            (if futureReadyToSet (s.events id) = true then
              { s.events id with
                  error_message := some err
                  status := EventStatus.FAILED
                  result_future := some (.excp err) }
             else
              { s.events id with
                  error_message := some err
                  status := EventStatus.FAILED })
          deadLetter := dequeAppend cfg.dead_letter_queue_size s.deadLetter id },
       none) := by
  simp only [handleEventError]
  rw [if_neg (Nat.not_lt.mpr h)]
  rfl

theorem handleEventError_retry_proj (cfg : Config) (s : BusState) (id : Nat)
    (err : BusError)
    (h : (s.events id).retry_count < (s.events id).max_retries) :
    ((handleEventError cfg s id err).1.events id) =
      { s.events id with
          error_message := some err
          retry_count := (s.events id).retry_count + 1
          status := EventStatus.PENDING } ∧
    (handleEventError cfg s id err).1.queues =
      enqueueAt s.queues (s.events id).priority.value id ∧
    (handleEventError cfg s id err).1.deadLetter = s.deadLetter ∧
    (handleEventError cfg s id err).2 =
      some (cfg.retry_delay * 2 ^ (s.events id).retry_count) := by
  rw [handleEventError_retry cfg s id err h]
  refine ⟨?_, rfl, rfl, rfl⟩
  dsimp only
  rw [Function.update_same]

theorem handleEventError_exhausted_proj (cfg : Config) (s : BusState) (id : Nat)
    (err : BusError)
    (h : (s.events id).max_retries ≤ (s.events id).retry_count) :
    (handleEventError cfg s id err).2 = none ∧
    ((handleEventError cfg s id err).1.events id).status = EventStatus.FAILED ∧
    ((handleEventError cfg s id err).1.events id).error_message = some err ∧
    (handleEventError cfg s id err).1.deadLetter =
      dequeAppend cfg.dead_letter_queue_size s.deadLetter id ∧
    (handleEventError cfg s id err).1.queues = s.queues ∧
    (futureReadyToSet (s.events id) = true →
      ((handleEventError cfg s id err).1.events id).result_future =
        some (.excp err)) := by
  rw [handleEventError_exhausted cfg s id err h]
  refine ⟨rfl, ?_, ?_, rfl, rfl, ?_⟩
  · dsimp only
    by_cases hf : futureReadyToSet (s.events id) = true
    · rw [Function.update_same, if_pos hf]
    · rw [Function.update_same, if_neg hf]
  · dsimp only
    by_cases hf : futureReadyToSet (s.events id) = true
    · rw [Function.update_same, if_pos hf]
    · rw [Function.update_same, if_neg hf]
  · intro hf
    dsimp only
    rw [Function.update_same, if_pos hf]

/-- With no listener registered for the event's type, _process_event raises
the no-listeners ValueError straight into _handle_event_error (after marking
the event PROCESSING). -/
theorem processEvent_nil (cfg : Config) (s : BusState) (id : Nat)
    (hnl : s.listeners ((s.events id).type) = []) :
    processEvent cfg s id =
      handleEventError cfg
        { s with
            events := Function.update s.events id
              { s.events id with status := EventStatus.PROCESSING } }
        id (.noListeners (s.events id).type) := by
  simp only [processEvent]
  rw [if_pos]
  exact List.isEmpty_iff.mpr hnl

/-! ## Claim theorems -/

/-- C8: every listener registered through the constructor path gets a
semaphore with exactly one permit, whatever max_concurrent was supplied, and
under the acquire/release discipline of _execute_listener a one-permit
semaphore admits at most one active invocation at any instant. -/
theorem listener_semaphore_single_permit (ty : EventType) (h : Handler)
    (p : EventPriority) (mc : Nat) (tmo : ℚ) (name : String) (st : SemState)
    (hreach : Relation.ReflTransGen SemStep { permits := 1, active := 0 } st) :
    (mkEventListener ty h p mc tmo name).semaphoreInitPermits = 1 ∧
      st.active ≤ 1 := by
  refine ⟨rfl, ?_⟩
  have hsum := semReachable_sum hreach
  omega

/-- Witness for C8: a listener registered with max_concurrent = 5 still has a
one-permit semaphore, and the freshly created semaphore state respects the
bound. -/
theorem listener_semaphore_single_permit_witness :
    (mkEventListener .FILE_UPLOAD_RECORD slowAsyncHandler .NORMAL 5 30
        "w8").semaphoreInitPermits = 1 ∧
      (SemState.mk 1 0).active ≤ 1 :=
  listener_semaphore_single_permit .FILE_UPLOAD_RECORD slowAsyncHandler
    .NORMAL 5 30 "w8" (SemState.mk 1 0) Relation.ReflTransGen.refl

/-- C9: a synchronous (non-coroutine) handler is run in the executor with no
deadline: _call_listener just returns its outcome, whatever the listener or
event timeouts and however long the call takes, so a listener-level timeout
error can never arise for it. -/
theorem sync_handler_never_times_out (l : EventListener) (e : Event)
    (hsync : l.handler.isCoroutine = false) :
    callListener l e =
      (match (l.handler.behavior e).outcome with
       | .ok v => .ok v
       | .error m => .error (.handlerFailure l.name m)) ∧
      ∀ n, callListener l e ≠ .error (.listenerTimeout n) := by
  have hcall : callListener l e =
      (match (l.handler.behavior e).outcome with
       | .ok v => .ok v
       | .error m => .error (.handlerFailure l.name m)) := by
    unfold callListener
    rw [hsync]
    simp only [Bool.false_eq_true, if_false]
  refine ⟨hcall, fun n hc => ?_⟩
  rw [hcall] at hc
  cases hout : (l.handler.behavior e).outcome with
  | ok v => rw [hout] at hc; exact Except.noConfusion hc
  | error m =>
    rw [hout] at hc
    exact BusError.noConfusion (Except.error.inj hc)

/-- A sync handler that runs for 1000 s against a 1-second listener timeout. -/
def slowSyncHandler : Handler :=
  { isCoroutine := false, behavior := fun _ => { duration := 1000, outcome := .ok 7 } }

/-- A listener over the slow sync handler with a 1-second timeout. -/
def slowSyncListener : EventListener :=
  mkEventListener .FILE_UPLOAD_RECORD slowSyncHandler .NORMAL 1 1 "w9"

/-- Witness for C9: the 1000-second synchronous handler sails past its
1-second listener timeout and still returns its value. -/
theorem sync_handler_never_times_out_witness :
    callListener slowSyncListener sampleEvent = .ok 7 :=
  (sync_handler_never_times_out slowSyncListener sampleEvent rfl).1

/-- C1 (bug evidence): the enqueue phase of emit pops the event from
pending_events in its finally block right after the queue put, so by the time
the caller is suspended on the result future the event is no longer pending;
stop() therefore cancels nothing for it — its future stays unresolved and its
status stays PENDING instead of CANCELLED — while any emit after stop() does
fail with the not-running error. -/
theorem stop_fails_to_cancel_enqueued_event :
    ∃ s1 : BusState,
      emitPhase1 startedBus sampleEvent = .ok s1 ∧
      s1.pending = [] ∧
      ((stopBus s1).events 0).status = EventStatus.PENDING ∧
      ((stopBus s1).events 0).result_future = some FutureState.unresolved ∧
      (stopBus s1).running = false ∧
      emitPhase1 (stopBus s1) (mkEvent .FILE_UPLOAD_RECORD 1) =
        .error BusError.notRunning := by
  refine ⟨_, rfl, ?_, ?_, ?_, ?_, ?_⟩ <;> rfl

/-- C2 (counterexample): an event whose type has no registered listener is
not failed immediately; with the default max_retry_count = 3 the
no-listeners error takes the ordinary retry path: status PENDING,
retry_count bumped to 1, the event re-enqueued on its NORMAL queue after a
1-second backoff, and nothing dead-lettered. -/
theorem no_listeners_event_is_retried :
    ((processEvent defaultConfig startedBus 0).1.events 0).status =
        EventStatus.PENDING ∧
      ((processEvent defaultConfig startedBus 0).1.events 0).retry_count = 1 ∧
      ((processEvent defaultConfig startedBus 0).1.events 0).error_message =
        some (BusError.noListeners .FILE_UPLOAD_RECORD) ∧
      (processEvent defaultConfig startedBus 0).1.queues = [[], [0], [], []] ∧
      (processEvent defaultConfig startedBus 0).1.deadLetter = [] ∧
      (processEvent defaultConfig startedBus 0).2.isSome = true := by
  refine ⟨rfl, rfl, rfl, rfl, rfl, rfl⟩

/-- C3 (counterexample): a CRITICAL listener whose coroutine handler overruns
its own 1-second timeout does not put the event into the TIMEOUT/dead-letter
path: the TimeoutError escalates into the generic retry path, so the event
ends the dispatch PENDING with retry_count 1, re-enqueued, and the
dead-letter deque stays empty. -/
theorem listener_timeout_is_retried_not_dead_lettered :
    ((processEvent defaultConfig slowCriticalBus 0).1.events 0).status =
        EventStatus.PENDING ∧
      ((processEvent defaultConfig slowCriticalBus 0).1.events 0).status ≠
        EventStatus.TIMEOUT ∧
      ((processEvent defaultConfig slowCriticalBus 0).1.events 0).retry_count = 1 ∧
      ((processEvent defaultConfig slowCriticalBus 0).1.events 0).error_message =
        some (BusError.listenerTimeout "c3") ∧
      (processEvent defaultConfig slowCriticalBus 0).1.queues = [[], [0], [], []] ∧
      (processEvent defaultConfig slowCriticalBus 0).1.deadLetter = [] := by
  refine ⟨rfl, fun hc => EventStatus.noConfusion hc, rfl, rfl, rfl, rfl⟩

/-- A started bus holding an event (id 7) that has used up its three retries
and carries an unresolved result future. -/
def exhaustedBus : BusState :=
  { startedBus with
    events := Function.update startedBus.events 7
      { mkEvent .FILE_UPLOAD_RECORD 7 with
          retry_count := 3
          result_future := some .unresolved } }

/-- C5: _handle_event_error either retries — retry_count incremented, status
PENDING, a backoff of retry_delay * 2 ^ (new retry_count - 1) slept, the
event re-enqueued on the queue of its own unchanged priority, dead-letter
untouched — or, with retries exhausted, marks the event FAILED, appends it to
the dead-letter deque and resolves a present, unresolved result future with
the escalated error. -/
theorem retry_path_spec (cfg : Config) (s : BusState) (id : Nat)
    (err : BusError) :
    ((s.events id).retry_count < (s.events id).max_retries →
      handleEventError cfg s id err =
        ({ s with
            events := Function.update s.events id
              { s.events id with
                  error_message := some err
                  retry_count := (s.events id).retry_count + 1
                  status := EventStatus.PENDING }
            queues := enqueueAt s.queues (s.events id).priority.value id },
         some (cfg.retry_delay * 2 ^ (s.events id).retry_count))) ∧
    ((s.events id).max_retries ≤ (s.events id).retry_count →
      (handleEventError cfg s id err).2 = none ∧
      ((handleEventError cfg s id err).1.events id).status = EventStatus.FAILED ∧
      ((handleEventError cfg s id err).1.events id).error_message = some err ∧
      (handleEventError cfg s id err).1.deadLetter =
        dequeAppend cfg.dead_letter_queue_size s.deadLetter id ∧
      (handleEventError cfg s id err).1.queues = s.queues ∧
      (futureReadyToSet (s.events id) = true →
        ((handleEventError cfg s id err).1.events id).result_future =
          some (.excp err))) :=
  ⟨handleEventError_retry cfg s id err,
   handleEventError_exhausted_proj cfg s id err⟩

/-- Witness for C5, both branches: the default event (0 of 3 retries used)
is re-enqueued as PENDING with retry_count 1; the exhausted event (3 of 3)
is FAILED, dead-lettered, and its future receives the error. -/
theorem retry_path_spec_witness :
    (((handleEventError defaultConfig startedBus 0
          (BusError.handlerFailure "h" "boom")).1.events 0).status =
        EventStatus.PENDING ∧
      ((handleEventError defaultConfig startedBus 0
          (BusError.handlerFailure "h" "boom")).1.events 0).retry_count = 1 ∧
      (handleEventError defaultConfig startedBus 0
          (BusError.handlerFailure "h" "boom")).1.queues = [[], [0], [], []]) ∧
    (((handleEventError defaultConfig exhaustedBus 7
          (BusError.handlerFailure "h" "boom")).1.events 7).status =
        EventStatus.FAILED ∧
      (handleEventError defaultConfig exhaustedBus 7
          (BusError.handlerFailure "h" "boom")).1.deadLetter = [7] ∧
      ((handleEventError defaultConfig exhaustedBus 7
          (BusError.handlerFailure "h" "boom")).1.events 7).result_future =
        some (.excp (BusError.handlerFailure "h" "boom"))) := by
  constructor
  · have h := (retry_path_spec defaultConfig startedBus 0
      (BusError.handlerFailure "h" "boom")).1 (by decide)
    rw [h]
    exact ⟨rfl, rfl, rfl⟩
  · have h := (retry_path_spec defaultConfig exhaustedBus 7
      (BusError.handlerFailure "h" "boom")).2 (by decide)
    exact ⟨h.2.1, by rw [h.2.2.2.1]; rfl, h.2.2.2.2.2 (by decide)⟩

/-- C2 amended: an event whose type has zero registered listeners fails with
the no-listeners error through the ordinary retry path: while retry_count <
max_retries it is re-enqueued as PENDING with retry_count incremented (so it
is retried, though retrying cannot help); only once retries are exhausted
does its status become FAILED, the event is dead-lettered, and the error is
reported to a waiting caller through the result future.  The failure is
immediate only when max_retries is already spent (e.g. zero). -/
theorem no_listeners_error_path (cfg : Config) (s : BusState) (id : Nat)
    (hnl : s.listeners ((s.events id).type) = []) :
    ((s.events id).retry_count < (s.events id).max_retries →
      ((processEvent cfg s id).1.events id) =
        { s.events id with
            status := EventStatus.PENDING
            error_message := some (.noListeners (s.events id).type)
            retry_count := (s.events id).retry_count + 1 } ∧
      (processEvent cfg s id).1.queues =
        enqueueAt s.queues (s.events id).priority.value id ∧
      (processEvent cfg s id).1.deadLetter = s.deadLetter) ∧
    ((s.events id).max_retries ≤ (s.events id).retry_count →
      ((processEvent cfg s id).1.events id).status = EventStatus.FAILED ∧
      ((processEvent cfg s id).1.events id).error_message =
        some (.noListeners (s.events id).type) ∧
      (processEvent cfg s id).1.deadLetter =
        dequeAppend cfg.dead_letter_queue_size s.deadLetter id ∧
      (processEvent cfg s id).1.queues = s.queues ∧
      (futureReadyToSet (s.events id) = true →
        ((processEvent cfg s id).1.events id).result_future =
          some (.excp (.noListeners (s.events id).type)))) := by
  rw [processEvent_nil cfg s id hnl]
  constructor
  · intro h
    have h2 := handleEventError_retry_proj cfg
      { s with events := (Function.update s.events id
          ({ s.events id with status := EventStatus.PROCESSING })) } id
      (.noListeners (s.events id).type)
      (by simpa [Function.update_same] using h)
    refine ⟨?_, ?_, h2.2.2.1⟩
    · rw [h2.1]
      simp [Function.update_same]
    · rw [h2.2.1]
      simp [Function.update_same]
  · intro h
    have h2 := handleEventError_exhausted_proj cfg
      { s with events := (Function.update s.events id
          ({ s.events id with status := EventStatus.PROCESSING })) } id
      (.noListeners (s.events id).type)
      (by simpa [Function.update_same] using h)
    exact ⟨h2.2.1, h2.2.2.1, h2.2.2.2.1, h2.2.2.2.2.1,
      fun hf => h2.2.2.2.2.2
        (by simpa [Function.update_same, futureReadyToSet] using hf)⟩

/-- Witness for the amended C2: the default event (0 of 3 retries) dispatched
with no listener is re-queued as PENDING with retry_count 1 and is not
dead-lettered. -/
theorem no_listeners_error_path_witness :
    ((processEvent defaultConfig startedBus 0).1.events 0) =
      { startedBus.events 0 with
          status := EventStatus.PENDING
          error_message := some (.noListeners .FILE_UPLOAD_RECORD)
          retry_count := 1 } ∧
    (processEvent defaultConfig startedBus 0).1.deadLetter = [] := by
  have h := (no_listeners_error_path defaultConfig startedBus 0 rfl).1 (by decide)
  refine ⟨?_, h.2.2⟩
  rw [h.1]
  rfl

/-- C3 amended: only the overall emit wait produces the TIMEOUT path —
_handle_timeout marks the event TIMEOUT and appends it to the dead-letter
deque without touching retry_count or any queue.  An individual listener
overrunning its own deadline instead surfaces as an ordinary listener
failure (a TimeoutError exception from _call_listener) that is swallowed or
escalated into the retry path by priority; it never marks the event TIMEOUT
or dead-letters it by itself. -/
theorem timeout_paths (cfg : Config) (s : BusState) (id : Nat)
    (l : EventListener) (e : Event)
    (hco : l.handler.isCoroutine = true)
    (hover : effectiveTimeout l e < (l.handler.behavior e).duration) :
    (handleTimeout cfg s id).events id =
      { s.events id with status := EventStatus.TIMEOUT } ∧
    (handleTimeout cfg s id).deadLetter =
      dequeAppend cfg.dead_letter_queue_size s.deadLetter id ∧
    (handleTimeout cfg s id).queues = s.queues ∧
    ((handleTimeout cfg s id).events id).retry_count =
      (s.events id).retry_count ∧
    callListener l e = .error (.listenerTimeout l.name) := by
  have hev : (handleTimeout cfg s id).events id =
      { s.events id with status := EventStatus.TIMEOUT } := by
    simp only [handleTimeout]
    rw [Function.update_same]
  refine ⟨hev, rfl, rfl, ?_, ?_⟩
  · rw [hev]
  · simp only [callListener, hco, if_true]
    rw [if_pos hover]

/-- Witness for the amended C3: timing out the started bus's event 0
dead-letters it with status TIMEOUT, while the slow critical listener's
1-second deadline against a 10-second handler yields the listener-timeout
exception. -/
theorem timeout_paths_witness :
    ((handleTimeout defaultConfig startedBus 0).events 0).status =
        EventStatus.TIMEOUT ∧
      (handleTimeout defaultConfig startedBus 0).deadLetter = [0] ∧
      callListener slowCriticalListener sampleEvent =
        .error (.listenerTimeout "c3") := by
  have h := timeout_paths defaultConfig startedBus 0 slowCriticalListener
    sampleEvent rfl (by decide)
  refine ⟨?_, ?_, h.2.2.2.2⟩
  · rw [h.1]
  · rw [h.2.1]
    rfl

theorem mem_insertDesc {l x : EventListener} {ls : List EventListener}
    (h : x ∈ insertDesc l ls) : x = l ∨ x ∈ ls := by
  induction ls with
  | nil => simpa [insertDesc] using h
  | cons y ys ih =>
    simp only [insertDesc] at h
    by_cases hc : l.priority.value < y.priority.value
    · rw [if_pos hc] at h
      rcases List.mem_cons.mp h with h1 | h2
      · right
        exact h1 ▸ List.mem_cons_self _ _
      · rcases ih h2 with h3 | h4
        · exact Or.inl h3
        · exact Or.inr (List.mem_cons_of_mem _ h4)
    · rw [if_neg hc] at h
      rcases List.mem_cons.mp h with h1 | h2
      · exact Or.inl h1
      · exact Or.inr h2

theorem pairwise_insertDesc (l : EventListener) (ls : List EventListener)
    (h : ls.Pairwise (fun a b => b.priority.value ≤ a.priority.value)) :
    (insertDesc l ls).Pairwise
      (fun a b => b.priority.value ≤ a.priority.value) := by
  induction ls with
  | nil => simp [insertDesc]
  | cons y ys ih =>
    rcases List.pairwise_cons.mp h with ⟨hy, hys⟩
    simp only [insertDesc]
    by_cases hc : l.priority.value < y.priority.value
    · rw [if_pos hc]
      refine List.pairwise_cons.mpr ⟨?_, ih hys⟩
      intro z hz
      rcases mem_insertDesc hz with rfl | hzys
      · exact Nat.le_of_lt hc
      · exact hy z hzys
    · rw [if_neg hc]
      refine List.pairwise_cons.mpr ⟨?_, h⟩
      intro z hz
      rcases List.mem_cons.mp hz with rfl | hzys
      · exact Nat.le_of_not_lt hc
      · exact le_trans (hy z hzys) (Nat.le_of_not_lt hc)

theorem pairwise_sortByPriorityDesc (ls : List EventListener) :
    (sortByPriorityDesc ls).Pairwise
      (fun a b => b.priority.value ≤ a.priority.value) := by
  induction ls with
  | nil => simp [sortByPriorityDesc]
  | cons x xs ih => exact pairwise_insertDesc x _ ih

/-- C4: when a listener's handler raises during dispatch, its total_failed
counter is bumped; if and only if that listener's priority is HIGH or
CRITICAL the failure escalates — the loop stops at once, later listeners are
left untouched and the error is handed to the retry path — while for a LOW
or NORMAL listener the error is swallowed and the loop continues with the
remaining listeners; and register_listener always leaves the per-type list
in descending-priority invocation order. -/
theorem listener_failure_policy (l : EventListener) (rest : List EventListener)
    (e : Event) (err : BusError)
    (hfail : callListener l e = .error err) :
    ((l.priority = .HIGH ∨ l.priority = .CRITICAL) →
      runListeners (l :: rest) e =
        ({ l with total_failed := l.total_failed + 1 } :: rest, .error err)) ∧
    ((l.priority = .LOW ∨ l.priority = .NORMAL) →
      runListeners (l :: rest) e =
        ({ l with total_failed := l.total_failed + 1 } ::
            (runListeners rest e).1,
         (runListeners rest e).2)) ∧
    (∀ (s : BusState) (lnew : EventListener),
      ((registerListener s lnew).listeners lnew.event_type).Pairwise
        (fun a b => b.priority.value ≤ a.priority.value)) := by
  refine ⟨?_, ?_, ?_⟩
  · intro hp
    have hge : l.priority.value ≥ 2 := by
      rcases hp with h | h <;> rw [h] <;> decide
    simp only [runListeners, hfail]
    rw [if_pos hge]
  · intro hp
    have hlt : ¬l.priority.value ≥ 2 := by
      rcases hp with h | h <;> rw [h] <;> decide
    simp only [runListeners, hfail]
    rw [if_neg hlt]
  · intro s lnew
    simp only [registerListener]
    rw [if_pos trivial]
    exact pairwise_sortByPriorityDesc _

/-- A synchronous handler that always raises. -/
def failSyncHandler : Handler :=
  { isCoroutine := false
    behavior := fun _ => { duration := 0, outcome := .error "boom" } }

/-- A CRITICAL listener whose handler always raises. -/
def failingCriticalListener : EventListener :=
  mkEventListener .FILE_UPLOAD_RECORD failSyncHandler .CRITICAL 1 30 "c4"

/-- Witness for C4: the failing CRITICAL listener aborts dispatch with its
error after its total_failed counter is bumped. -/
theorem listener_failure_policy_witness :
    runListeners [failingCriticalListener] sampleEvent =
      ([{ failingCriticalListener with total_failed := 1 }],
       .error (.handlerFailure "c4" "boom")) := by
  have h := (listener_failure_policy failingCriticalListener [] sampleEvent
    (.handlerFailure "c4" "boom") rfl).1 (Or.inr rfl)
  exact h

/-- The value a successful listener call contributes to the results list
(none for a raising call). -/
def okValue : Except BusError Value → Option Value
  | .ok v => some v
  | .error _ => none

theorem runListeners_all_ok (ls : List EventListener) (e : Event)
    (h : ∀ l ∈ ls, (∃ v, callListener l e = .ok v) ∨ l.priority.value < 2) :
    (runListeners ls e).2 =
      .ok (ls.filterMap (fun l => okValue (callListener l e))) := by
  induction ls with
  | nil => simp [runListeners]
  | cons l rest ih =>
    have hrest := ih (fun x hx => h x (List.mem_cons_of_mem _ hx))
    cases hc : callListener l e with
    | ok v =>
      simp only [runListeners, hc, List.filterMap_cons, okValue]
      rw [hrest]
      rfl
    | error err =>
      have hlow : l.priority.value < 2 := by
        rcases h l (List.mem_cons_self _ _) with ⟨v, hv⟩ | hlow
        · rw [hc] at hv
          exact absurd hv (by simp)
        · exact hlow
      simp only [runListeners, hc, List.filterMap_cons, okValue]
      rw [if_neg (by omega)]
      simpa using hrest

theorem completeEvent_proj (s : BusState) (id : Nat) (r : ResultVal) :
    ((completeEvent s id r).events id).status = EventStatus.COMPLETED ∧
    (futureReadyToSet (s.events id) = true →
      ((completeEvent s id r).events id).result_future =
        some (.result r)) ∧
    (completeEvent s id r).queues = s.queues ∧
    (completeEvent s id r).deadLetter = s.deadLetter := by
  refine ⟨?_, ?_, rfl, rfl⟩
  · simp only [completeEvent]
    rw [Function.update_same]
    by_cases hf : futureReadyToSet
        { s.events id with status := EventStatus.COMPLETED } = true
    · rw [if_pos hf]
    · rw [if_neg hf]
  · intro hf
    have hf2 : futureReadyToSet
        { s.events id with status := EventStatus.COMPLETED } = true := hf
    simp only [completeEvent]
    rw [Function.update_same, if_pos hf2]

/-- C10: with at least one listener registered and every failing listener
non-escalating (priority LOW or NORMAL), the event completes: status
COMPLETED, no retry sleep, and the result future — when present and
unresolved — receives exactly the successful listeners' results: the single
value when exactly one result was produced, otherwise the list of produced
results (the empty list when every listener failed non-critically).  No
partial-failure indication accompanies the result. -/
theorem noncritical_failures_complete (cfg : Config) (s : BusState) (id : Nat)
    (hne : s.listeners ((s.events id).type) ≠ [])
    (hok : ∀ l ∈ s.listeners ((s.events id).type),
      (∃ v, callListener l
          { s.events id with status := EventStatus.PROCESSING } = .ok v) ∨
        l.priority.value < 2) :
    ((processEvent cfg s id).1.events id).status = EventStatus.COMPLETED ∧
    (processEvent cfg s id).2 = none ∧
    (futureReadyToSet (s.events id) = true →
      ((processEvent cfg s id).1.events id).result_future =
        some (.result (finalResult
          ((s.listeners ((s.events id).type)).filterMap
            (fun l => okValue (callListener l
              { s.events id with status := EventStatus.PROCESSING })))))) := by
  have hcond : ¬((s.listeners ((s.events id).type)).isEmpty = true) :=
    fun hc => hne (List.isEmpty_iff.mp hc)
  have hres := runListeners_all_ok (s.listeners ((s.events id).type))
    { s.events id with status := EventStatus.PROCESSING } hok
  simp only [processEvent]
  rw [if_neg hcond, hres]
  refine ⟨(completeEvent_proj _ id _).1, rfl, ?_⟩
  intro hf
  refine (completeEvent_proj _ id _).2.1 ?_
  simp only [Function.update_same]
  exact hf

/-- A bus with one default event carrying an unresolved result future and two
always-failing LOW listeners for its type. -/
def lowFailureBus : BusState :=
  registerListener
    (registerListener
      { startedBus with
        events := Function.update startedBus.events 0
          ({ mkEvent .FILE_UPLOAD_RECORD 0 with
              result_future := some .unresolved }) }
      (mkEventListener .FILE_UPLOAD_RECORD failSyncHandler .LOW 1 30 "w10a"))
    (mkEventListener .FILE_UPLOAD_RECORD failSyncHandler .LOW 1 30 "w10b")

/-- Witness for C10: when both LOW listeners fail, the event still completes
and the waiting caller receives the empty results list. -/
theorem noncritical_failures_complete_witness :
    ((processEvent defaultConfig lowFailureBus 0).1.events 0).status =
        EventStatus.COMPLETED ∧
      ((processEvent defaultConfig lowFailureBus 0).1.events 0).result_future =
        some (.result (.many [])) := by
  have h := noncritical_failures_complete defaultConfig lowFailureBus 0
    (by rw [show lowFailureBus.listeners ((lowFailureBus.events 0).type) =
        [mkEventListener .FILE_UPLOAD_RECORD failSyncHandler .LOW 1 30 "w10a",
         mkEventListener .FILE_UPLOAD_RECORD failSyncHandler .LOW 1 30 "w10b"]
        from rfl]
        simp)
    (by intro l hl
        rw [show lowFailureBus.listeners ((lowFailureBus.events 0).type) =
          [mkEventListener .FILE_UPLOAD_RECORD failSyncHandler .LOW 1 30 "w10a",
           mkEventListener .FILE_UPLOAD_RECORD failSyncHandler .LOW 1 30 "w10b"]
          from rfl] at hl
        simp only [List.mem_cons, List.not_mem_nil, or_false] at hl
        rcases hl with rfl | rfl <;> exact Or.inr (by decide))
  refine ⟨h.1, ?_⟩
  rw [h.2.2 rfl]
  rfl

/-- Some queue in the list is non-empty. -/
def anyNonempty (qs : List (List Nat)) : Bool := qs.any (fun q => !q.isEmpty)

/-- Index of the last non-empty queue (0 when all are empty) — with queue
index = priority value, the highest-priority non-empty queue. -/
def highestIdx : List (List Nat) → Nat
  | [] => 0
  | _ :: rest => if anyNonempty rest then highestIdx rest + 1 else 0

theorem pollQueues_none (qs : List (List Nat)) (h : anyNonempty qs = false) :
    pollQueues qs = none := by
  induction qs with
  | nil => rfl
  | cons q rest ih =>
    simp only [anyNonempty, List.any_cons, Bool.or_eq_false_iff] at h
    have hq : q = [] := by
      cases q with
      | nil => rfl
      | cons a as => simp at h
    have hrest := ih h.2
    simp [pollQueues, hrest, hq]

theorem getD_of_allEmpty (qs : List (List Nat))
    (h : anyNonempty qs = false) (m : Nat) : qs.getD m [] = [] := by
  induction qs generalizing m with
  | nil => simp
  | cons q rest ih =>
    simp only [anyNonempty, List.any_cons, Bool.or_eq_false_iff] at h
    have hq : q = [] := by
      cases q with
      | nil => rfl
      | cons a as => simp at h
    cases m with
    | zero => simpa using hq
    | succ m2 => simpa using ih h.2 m2

theorem anyNonempty_of_getD (qs : List (List Nat)) (m : Nat)
    (h : qs.getD m [] ≠ []) : anyNonempty qs = true := by
  induction qs generalizing m with
  | nil => simp at h
  | cons a as ih =>
    simp only [anyNonempty, List.any_cons, Bool.or_eq_true]
    cases m with
    | zero =>
      simp only [List.getD_cons_zero] at h
      left
      cases a with
      | nil => exact absurd rfl h
      | cons x xs => rfl
    | succ m2 =>
      simp only [List.getD_cons_succ] at h
      exact Or.inr (ih m2 h)

theorem pollQueues_highest (qs : List (List Nat)) (h : anyNonempty qs = true) :
    highestIdx qs < qs.length ∧
    qs.getD (highestIdx qs) [] ≠ [] ∧
    (pollQueues qs).map Prod.fst =
      some ((qs.getD (highestIdx qs) []).headI) ∧
    (∀ m, highestIdx qs < m → qs.getD m [] = []) := by
  induction qs with
  | nil => simp [anyNonempty] at h
  | cons q rest ih =>
    by_cases hr : anyNonempty rest = true
    · obtain ⟨ih1, ih2, ih3, ih4⟩ := ih hr
      obtain ⟨⟨x, rest1⟩, hp⟩ : ∃ p, pollQueues rest = some p := by
        cases hpq : pollQueues rest with
        | none => rw [hpq] at ih3; simp at ih3
        | some p => exact ⟨p, rfl⟩
      have hhi : highestIdx (q :: rest) = highestIdx rest + 1 := by
        simp [highestIdx, hr]
      have ih3x : x = (rest.getD (highestIdx rest) []).headI := by
        rw [hp] at ih3
        simpa using ih3
      refine ⟨?_, ?_, ?_, ?_⟩
      · rw [hhi]
        simpa using Nat.succ_lt_succ ih1
      · rw [hhi, List.getD_cons_succ]
        exact ih2
      · rw [hhi, List.getD_cons_succ]
        simp only [pollQueues, hp]
        simpa using ih3x
      · intro m hm
        rw [hhi] at hm
        cases m with
        | zero => omega
        | succ m2 =>
          rw [List.getD_cons_succ]
          exact ih4 m2 (by omega)
    · have hrf : anyNonempty rest = false := by
        simpa using hr
      have hq : q ≠ [] := by
        simp only [anyNonempty, List.any_cons, Bool.or_eq_true] at h
        rcases h with h1 | h2
        · cases q with
          | nil => simp at h1
          | cons a as => simp
        · exact absurd h2 (by simp [show rest.any (fun q => !q.isEmpty) = false from hrf])
      have hhi : highestIdx (q :: rest) = 0 := by
        simp [highestIdx, hrf]
      obtain ⟨a, as, rfl⟩ : ∃ a as, q = a :: as := by
        cases q with
        | nil => exact absurd rfl hq
        | cons a as => exact ⟨a, as, rfl⟩
      refine ⟨?_, ?_, ?_, ?_⟩
      · rw [hhi]
        simp
      · rw [hhi]
        simp
      · rw [hhi]
        simp only [pollQueues, pollQueues_none rest hrf]
        rfl
      · intro m hm
        cases m with
        | zero => omega
        | succ m2 =>
          rw [List.getD_cons_succ]
          exact getD_of_allEmpty rest hrf m2

/-- C6: _get_next_event polls the queues in reversed index order — CRITICAL
(index 3) first, then HIGH, NORMAL, LOW — so whenever a higher-priority queue
and a lower-priority queue are both non-empty, the dequeued event is the
front of the highest-index non-empty queue, which sits at or above the
higher of the two priorities. -/
theorem worker_prefers_higher_priority (qs : List (List Nat))
    (p q : EventPriority) (hlen : qs.length = 4)
    (hpq : p.value < q.value)
    (hp : qs.getD p.value [] ≠ []) (hq : qs.getD q.value [] ≠ []) :
    q.value ≤ highestIdx qs ∧
    qs.getD (highestIdx qs) [] ≠ [] ∧
    (pollQueues qs).map Prod.fst =
      some ((qs.getD (highestIdx qs) []).headI) := by
  obtain ⟨h1, h2, h3, h4⟩ :=
    pollQueues_highest qs (anyNonempty_of_getD qs q.value hq)
  refine ⟨?_, h2, h3⟩
  by_contra hcon
  push_neg at hcon
  exact hq (h4 _ hcon)

/-- Witness for C6: with the LOW and CRITICAL queues both non-empty, the
polled event is the front of the CRITICAL queue. -/
theorem worker_prefers_higher_priority_witness :
    EventPriority.CRITICAL.value ≤ highestIdx [[7], [], [], [9]] ∧
    [[7], [], [], [9]].getD (highestIdx [[7], [], [], [9]]) [] ≠ [] ∧
    (pollQueues [[7], [], [], [9]]).map Prod.fst =
      some (([[7], [], [], [9]].getD (highestIdx [[7], [], [], [9]]) []).headI) :=
  worker_prefers_higher_priority [[7], [], [], [9]] .LOW .CRITICAL rfl
    (by decide) (by decide) (by decide)

theorem dequeAppend_le (cap : Nat) (buf : List Nat) (x : Nat)
    (h : buf.length ≤ cap) : (dequeAppend cap buf x).length ≤ cap := by
  simp only [dequeAppend]
  by_cases hc : cap < (buf ++ [x]).length
  · rw [if_pos hc]
    simp only [List.length_drop]
    omega
  · rw [if_neg hc]
    simp only [List.length_append] at hc ⊢
    omega

theorem handleEventError_deadLetter (cfg : Config) (s : BusState) (id : Nat)
    (err : BusError) :
    (handleEventError cfg s id err).1.deadLetter = s.deadLetter ∨
    (handleEventError cfg s id err).1.deadLetter =
      dequeAppend cfg.dead_letter_queue_size s.deadLetter id := by
  simp only [handleEventError]
  split
  · exact Or.inl rfl
  · exact Or.inr rfl

theorem processEvent_deadLetter (cfg : Config) (s : BusState) (id : Nat) :
    (processEvent cfg s id).1.deadLetter = s.deadLetter ∨
    (processEvent cfg s id).1.deadLetter =
      dequeAppend cfg.dead_letter_queue_size s.deadLetter id := by
  simp only [processEvent]
  split
  · exact handleEventError_deadLetter cfg _ id _
  · split
    · exact Or.inl rfl
    · exact handleEventError_deadLetter cfg _ id _

theorem emitPhase1_deadLetter {s s' : BusState} {e : Event}
    (h : emitPhase1 s e = .ok s') : s'.deadLetter = s.deadLetter := by
  unfold emitPhase1 at h
  split at h
  · exact Except.noConfusion h
  · injection h with h2
    subst h2
    rfl

theorem stopBus_deadLetter (s : BusState) :
    (stopBus s).deadLetter = s.deadLetter := by
  unfold stopBus
  split <;> rfl

theorem reachable_deadLetter_le (cfg : Config) (s : BusState)
    (h : Reachable cfg s) :
    s.deadLetter.length ≤ cfg.dead_letter_queue_size := by
  induction h with
  | refl => exact Nat.zero_le _
  | tail hst step ih =>
    rename_i b c
    cases step with
    | start => exact ih
    | emit s2 ev hemit =>
      rw [emitPhase1_deadLetter hemit]
      exact ih
    | process id =>
      rcases processEvent_deadLetter cfg b id with h1 | h1
      · rw [h1]; exact ih
      · rw [h1]; exact dequeAppend_le _ _ _ ih
    | timeout id =>
      have hdl : (handleTimeout cfg b id).deadLetter =
          dequeAppend cfg.dead_letter_queue_size b.deadLetter id := rfl
      rw [hdl]
      exact dequeAppend_le _ _ _ ih
    | register l => exact ih
    | stop =>
      rw [stopBus_deadLetter]
      exact ih
    | clearDL => exact Nat.zero_le _

theorem dequeAppend_full (cap : Nat) (buf : List Nat) (x : Nat)
    (hfull : buf.length = cap) (hpos : 0 < cap) :
    dequeAppend cap buf x = buf.tail ++ [x] := by
  simp only [dequeAppend]
  rw [if_pos (by simp [hfull])]
  have hlen : (buf ++ [x]).length - cap = 1 := by
    simp [hfull]
  rw [hlen, List.drop_append_of_le_length (by omega), List.drop_one]

/-- C7: in every reachable bus state the dead-letter deque holds at most
dead_letter_queue_size entries — every append on the failure and timeout
paths goes through the bounded deque — and appending to a full deque evicts
exactly the oldest entry, keeping the rest in insertion order. -/
theorem dead_letter_bounded (cfg : Config) (s : BusState)
    (hreach : Reachable cfg s) (buf : List Nat) (x : Nat)
    (hfull : buf.length = cfg.dead_letter_queue_size)
    (hpos : 0 < cfg.dead_letter_queue_size) :
    s.deadLetter.length ≤ cfg.dead_letter_queue_size ∧
    dequeAppend cfg.dead_letter_queue_size buf x = buf.tail ++ [x] :=
  ⟨reachable_deadLetter_le cfg s hreach,
   dequeAppend_full _ _ _ hfull hpos⟩

/-- Witness for C7: the state reached by starting the bus and timing out
event 0 respects the bound, and appending to a full 100-entry deque drops
exactly its oldest entry. -/
theorem dead_letter_bounded_witness :
    (handleTimeout defaultConfig startedBus 0).deadLetter.length ≤
        defaultConfig.dead_letter_queue_size ∧
      dequeAppend defaultConfig.dead_letter_queue_size
          (List.replicate 100 3) 5 =
        (List.replicate 100 3).tail ++ [5] :=
  dead_letter_bounded defaultConfig (handleTimeout defaultConfig startedBus 0)
    (Relation.ReflTransGen.tail
      (Relation.ReflTransGen.tail Relation.ReflTransGen.refl
        (BusStep.start initBusState))
      (BusStep.timeout startedBus 0))
    (List.replicate 100 3) 5 rfl (by decide)

end EventBus
